import Mathlib

/-!
Flopgen: the `Image` class of `src/image.cpp`

A shallow embedding of `Image::Image`, `Image::~Image`, `Image::is_open`,
`Image::add_file`, `Image::add_directory` and `Image::operator<<`.

The FAT engine (FatFs: `f_setcp`, `f_mkfs`, `f_mount`, `f_mkdir`, `f_open`,
`f_write`, `f_close`) and the disk layer (`file_disk_setup`, `file_disk_free`)
are external to `image.cpp`.  They are embedded as an arbitrary deterministic
state machine `Engine σ`: every call receives the current engine state and
returns its result together with the next state.  Every function of the
embedding also returns the list of calls it issued, in program order.

Heap allocation (`new FATFS`, `new char[size]`, `delete`) never reaches the
engine; a `new` expression that cannot allocate throws instead of returning
`NULL`, so the two `== NULL` branches of the source are never taken and are
not represented.
-/

namespace Flopgen

/-! ## Declarations that `image.cpp` takes from headers -/

/-- Result code of a FatFs call (`FRESULT`).  The source only ever compares it
with the literal `0` and with `FR_EXIST`. -/
abbrev FRESULT := Nat

/-- Modelled from the spec: `ff.h` is not part of `src/`.  `FR_EXIST` is the
result with which make-directory reports "already exists" (section 6:
`makeDirectory(path) -> ok|exists|error`); FatFs numbers it 8. -/
def FR_EXIST : FRESULT := 8

/-- Modelled from the spec: the enumeration `FloppySize` of `image.hpp`, which
is not part of `src/`; section 3 lists the selectors 360K, 720K, 1200K, 1440K
and 2880K. -/
inductive FloppySize where
  | _360K
  | _720K
  | _1200K
  | _1440K
  | _2880K
  deriving DecidableEq, Repr

/-- Modelled from the spec: the integer value of each `FloppySize` enumerator
(`image.hpp` is absent), "the geometry selector's capacity in kilobytes"
of section 3. -/
def FloppySize.toNat : FloppySize → Nat
  | ._360K => 360
  | ._720K => 720
  | ._1200K => 1200
  | ._1440K => 1440
  | ._2880K => 2880

/-- Modelled from the spec: the constant `BYTES_IN_KB` of the absent headers;
section 3 has "totalBytes = capacity in kilobytes × 1024". -/
def BYTES_IN_KB : Nat := 1024

/-- Flags of `MKFS_PARM::fmt`, kept symbolic (`FM_SFD | FM_FAT`). -/
inductive FormatFlag where
  | FM_FAT
  | FM_SFD
  deriving DecidableEq, Repr

/-- Flags of the `mode` argument of `f_open`, kept symbolic
(`FA_WRITE | FA_CREATE_ALWAYS`). -/
inductive AccessFlag where
  | FA_WRITE
  | FA_CREATE_ALWAYS
  deriving DecidableEq, Repr

/-- The fields of `MKFS_PARM` that the constructor assigns. -/
structure MKFS_PARM where
  fmt : List FormatFlag
  align : Nat
  n_fat : Nat
  n_heads : Nat
  d_num : Nat
  au_size : Nat
  n_root : Nat
  mdt : Nat
  sec_per_track : Nat
  deriving DecidableEq, Repr

/-- State bits of a `std::fstream` (`rdstate()`). -/
structure iostate where
  badbit : Bool
  failbit : Bool
  eofbit : Bool
  deriving DecidableEq, Repr

/-- A `std::fstream` as `add_file` sees it: the bytes of the underlying file
from offset 0, whether a seek on the underlying buffer succeeds, and the state
bits the stream has when `add_file` is entered. -/
structure fstream where
  bytes : List Nat
  seekable : Bool
  state : iostate
  deriving DecidableEq, Repr

/-- A transient `char` buffer; `none` is a byte that was never written to
(`new char[size]` does not initialise). -/
abbrev Buffer := List (Option Nat)

/-- The accessors of the base class `File` (`file.hpp` is not part of `src/`):
`get_path_str(bool)`, `get_size()` as received in the `UINT` local, and
`get_stream()`. -/
structure FileInfo where
  get_path_str : Bool → String
  get_size : Nat
  get_stream : fstream

mutual
/-- A node of the host tree behind a `File *`: a plain file, or a `Directory`
(`is_directory()` tells them apart). -/
inductive File where
  | file (info : FileInfo)
  | directory (dir : Directory)
/-- The subclass `Directory` of `File`: the accessors of the base class and the
ordered children (`get_file_count()`, `operator[]`). -/
inductive Directory where
  | mk (info : FileInfo) (files : List File)
end

/-- The base-class accessors of a `Directory`. -/
def Directory.info : Directory → FileInfo
  | .mk info _ => info

/-- The children of a `Directory`, in the order of `operator[]`. -/
def Directory.files : Directory → List File
  | .mk _ files => files

/-- The base-class accessors of a node. -/
def File.info : File → FileInfo
  | .file info => info
  | .directory dir => dir.info

/-- Translation of `File::is_directory()`. -/
def File.is_directory : File → Bool
  | .file _ => false
  | .directory _ => true

/-- The default arguments that the calls `dir->get_path_str()` and
`add_file(file)` rely on.  They are written in `file.hpp` and `image.hpp`,
which are not part of `src/`, and are therefore parameters. -/
structure Defaults where
  get_path_str_arg : Bool
  path_with_dirs : Bool
  deriving DecidableEq, Repr

/-! ## The engine and the calls made to it -/

/-- One call that leaves `image.cpp`. -/
inductive Call where
  | file_disk_setup (filename : String) (size : Nat)
  | file_disk_free
  | f_setcp (code_page : Int)
  | f_mkfs (options : MKFS_PARM)
  | f_mount (fs : Bool) (opt : Nat)
  | f_mkdir (path : String)
  | f_open (path : String) (mode : List AccessFlag)
  | f_write (buffer : Buffer) (btw : Nat)
  | f_close
  deriving DecidableEq, Repr

/-- An arbitrary deterministic engine with state `σ`.  `file_disk_setup`
reports whether the backing store could be set up (section 4.2 of the spec);
`f_mount true` is `f_mount(fs, "", 1)` and `f_mount false` is
`f_mount(NULL, "", 0)`; `f_write` returns the result code and the value it
stores in `*bw`. -/
structure Engine (σ : Type) where
  file_disk_setup : String → Nat → σ → Bool × σ
  file_disk_free : σ → σ
  f_setcp : Int → σ → FRESULT × σ
  f_mkfs : MKFS_PARM → σ → FRESULT × σ
  f_mount : Bool → Nat → σ → FRESULT × σ
  f_mkdir : String → σ → FRESULT × σ
  f_open : String → List AccessFlag → σ → FRESULT × σ
  f_write : Buffer → Nat → σ → (FRESULT × Nat) × σ
  f_close : σ → FRESULT × σ

/-- What a member function leaves behind: its return value, the engine state
and the calls it issued, oldest first. -/
structure Outcome (σ : Type) (α : Type) where
  ret : α
  state : σ
  calls : List Call
  deriving DecidableEq, Repr

/-! ## `Image::Image`, `Image::~Image`, `Image::is_open` -/

/-- The data member `open` of `Image`. -/
structure Image where
  open_ : Bool
  deriving DecidableEq, Repr

/-- Translation of `Image::is_open`. -/
def Image.is_open (img : Image) : Bool := img.open_

/-- Lines 33-75 of `image.cpp`: the `MKFS_PARM` handed to `f_mkfs`. -/
def Image.options (size : FloppySize) : MKFS_PARM :=
  let fmt := [FormatFlag.FM_SFD, FormatFlag.FM_FAT]
  match size with
  | ._360K =>
    { fmt := fmt, align := 0, n_fat := 2, n_heads := 2, d_num := 0x00,
      au_size := 1024, n_root := 112, mdt := 0xFD, sec_per_track := 9 }
  | ._720K =>
    { fmt := fmt, align := 0, n_fat := 2, n_heads := 2, d_num := 0x00,
      au_size := 1024, n_root := 112, mdt := 0xF9, sec_per_track := 9 }
  | ._1200K =>
    { fmt := fmt, align := 0, n_fat := 2, n_heads := 2, d_num := 0x00,
      au_size := 512, n_root := 224, mdt := 0xF9, sec_per_track := 15 }
  | ._1440K =>
    { fmt := fmt, align := 0, n_fat := 2, n_heads := 2, d_num := 0x00,
      au_size := 512, n_root := 224, mdt := 0xF0, sec_per_track := 18 }
  | ._2880K =>
    { fmt := fmt, align := 0, n_fat := 2, n_heads := 2, d_num := 0x00,
      au_size := 1024, n_root := 224, mdt := 0xF0, sec_per_track := 36 }

/-- The label `error:` of the constructor: `open = false; file_disk_free();`
after the calls `done` were issued. -/
def Image.error {σ : Type} (e : Engine σ) (s : σ) (done : List Call) : Outcome σ Image :=
  { ret := { open_ := false }
    state := e.file_disk_free s
    calls := done ++ [Call.file_disk_free] }

/-- Translation of the constructor `Image::Image(filename, size, code_page)`.
Whatever `file_disk_setup` returns is discarded, as in the source. -/
def Image.construct {σ : Type} (e : Engine σ) (filename : String) (size : FloppySize)
    (code_page : Int) (s : σ) : Outcome σ Image :=
  let bytes := size.toNat * BYTES_IN_KB
  let s0 := (e.file_disk_setup filename bytes s).2
  let c0 := [Call.file_disk_setup filename bytes]
  let r1 := e.f_setcp code_page s0
  let c1 := c0 ++ [Call.f_setcp code_page]
  if r1.1 ≠ 0 then Image.error e r1.2 c1
  else
    let r2 := e.f_mkfs (Image.options size) r1.2
    let c2 := c1 ++ [Call.f_mkfs (Image.options size)]
    if r2.1 ≠ 0 then Image.error e r2.2 c2
    else
      let r3 := e.f_mount true 1 r2.2
      let c3 := c2 ++ [Call.f_mount true 1]
      if r3.1 ≠ 0 then Image.error e r3.2 c3
      else { ret := { open_ := true }, state := r3.2, calls := c3 }

/-- Translation of the destructor `Image::~Image`. -/
def Image.destruct {σ : Type} (e : Engine σ) (img : Image) (s : σ) : Outcome σ Unit :=
  if img.open_ then
    let r := e.f_mount false 0 s
    { ret := (), state := e.file_disk_free r.2,
      calls := [Call.f_mount false 0, Call.file_disk_free] }
  else { ret := (), state := s, calls := [] }

/-! ## `Image::add_file` -/

/-- The effect of `stream->seekg(0, ios::beg)` (C++11 `basic_istream::seekg`):
`eofbit` is cleared; a stream that is then not good gets `failbit`; otherwise
the underlying buffer seeks, and a failed seek sets `failbit`. -/
def fstream.seekg (st : fstream) : fstream :=
  let cleared : iostate := { st.state with eofbit := false }
  if cleared.badbit || cleared.failbit then
    { st with state := { cleared with failbit := true } }
  else if st.seekable then { st with state := cleared }
  else { st with state := { cleared with failbit := true } }

/-- The effect of `stream->read(buffer, size)` on a stream positioned at
offset 0 and a fresh buffer of `size` bytes: a stream that is not good gets
`failbit` and stores nothing; otherwise up to `size` bytes are stored, and a
source that ends before `size` bytes sets `failbit` and `eofbit`. -/
def fstream.read (st : fstream) (size : Nat) : Buffer × fstream :=
  if st.state.badbit || st.state.failbit || st.state.eofbit then
    (List.replicate size none, { st with state := { st.state with failbit := true } })
  else if size ≤ st.bytes.length then
    ((st.bytes.take size).map some, st)
  else
    (st.bytes.map some ++ List.replicate (size - st.bytes.length) none,
      { st with state := { st.state with failbit := true, eofbit := true } })

/-- Translation of `rdstate()` used as a condition: some state bit is set. -/
def fstream.rdstate (st : fstream) : Bool :=
  st.state.badbit || st.state.failbit || st.state.eofbit

/-- Translation of `eof()`. -/
def fstream.eof (st : fstream) : Bool := st.state.eofbit

/-- Translation of `Image::add_file(file_object, path_with_dirs)`. -/
def Image.add_file {σ : Type} (e : Engine σ) (file_object : File) (path_with_dirs : Bool)
    (s : σ) : Outcome σ Bool :=
  let stream := file_object.info.get_stream
  let size := file_object.info.get_size
  let path := file_object.info.get_path_str path_with_dirs
  let mode := [AccessFlag.FA_WRITE, AccessFlag.FA_CREATE_ALWAYS]
  let r1 := e.f_open path mode s
  let c1 := [Call.f_open path mode]
  if r1.1 ≠ 0 then { ret := false, state := r1.2, calls := c1 }
  else
    let rd := (stream.seekg).read size
    if rd.2.rdstate && !rd.2.eof then { ret := false, state := r1.2, calls := c1 }
    else
      let r2 := e.f_write rd.1 size r1.2
      let c2 := c1 ++ [Call.f_write rd.1 size]
      if r2.1.1 ≠ 0 ∨ r2.1.2 ≠ size then { ret := false, state := r2.2, calls := c2 }
      else
        let r3 := e.f_close r2.2
        let c3 := c2 ++ [Call.f_close]
        if r3.1 ≠ 0 then { ret := false, state := r3.2, calls := c3 }
        else { ret := true, state := r3.2, calls := c3 }

/-! ## `Image::add_directory`, `Image::operator<<` -/

mutual
/-- Translation of `Image::add_directory(dir)`. -/
def Image.add_directory {σ : Type} (e : Engine σ) (d : Defaults) :
    Directory → σ → Outcome σ Bool
  | .mk info files, s =>
    let path := info.get_path_str d.get_path_str_arg
    let r := e.f_mkdir path s
    if r.1 ≠ 0 ∧ r.1 ≠ FR_EXIST then
      { ret := false, state := r.2, calls := [Call.f_mkdir path] }
    else
      let l := Image.add_directory.loop e d files r.2
      { l with calls := Call.f_mkdir path :: l.calls }
/-- The `for` loop of `Image::add_directory` over the children not yet
visited: a child that returns false ends the loop with `false`. -/
def Image.add_directory.loop {σ : Type} (e : Engine σ) (d : Defaults) :
    List File → σ → Outcome σ Bool
  | [], s => { ret := true, state := s, calls := [] }
  | .file info :: rest, s =>
    let o := Image.add_file e (.file info) d.path_with_dirs s
    if !o.ret then o
    else
      let l := Image.add_directory.loop e d rest o.state
      { l with calls := o.calls ++ l.calls }
  | .directory dir :: rest, s =>
    let o := Image.add_directory e d dir s
    if !o.ret then o
    else
      let l := Image.add_directory.loop e d rest o.state
      { l with calls := o.calls ++ l.calls }
end

/-- Translation of `Image::operator<<(file_object)`. -/
def Image.operator_lshift {σ : Type} (e : Engine σ) (d : Defaults) (file_object : File)
    (s : σ) : Outcome σ Bool :=
  match file_object with
  | .directory dir => Image.add_directory e d dir s
  | .file _ => Image.add_file e file_object false s

/-! ## A concrete engine for evaluating the embedding -/

/-- An engine that answers from a script: its state is the list of answers
still to give, and every call that has a result consumes the first one (`0`
once the script is exhausted).  `file_disk_setup` succeeds when its answer is
`0`; `f_write` consumes two answers, the result code and the value of `*bw`. -/
def scripted : Engine (List Nat) where
  file_disk_setup := fun _ _ s => (decide (s.headD 0 = 0), s.tail)
  file_disk_free := fun s => s
  f_setcp := fun _ s => (s.headD 0, s.tail)
  f_mkfs := fun _ s => (s.headD 0, s.tail)
  f_mount := fun _ _ s => (s.headD 0, s.tail)
  f_mkdir := fun _ s => (s.headD 0, s.tail)
  f_open := fun _ _ s => (s.headD 0, s.tail)
  f_write := fun _ _ s => ((s.headD 0, s.tail.headD 0), s.tail.tail)
  f_close := fun s => (s.headD 0, s.tail)

/-- A good, seekable stream over the given bytes. -/
def goodStream (bytes : List Nat) : fstream :=
  { bytes := bytes, seekable := true,
    state := { badbit := false, failbit := false, eofbit := false } }

/-- A node `DOCS/README.TXT` of declared size 5 holding "hello". -/
def readme : FileInfo :=
  { get_path_str := fun with_dirs => if with_dirs then "DOCS/README.TXT" else "README.TXT"
    get_size := 5
    get_stream := goodStream [104, 101, 108, 108, 111] }

/-- The directory node `DOCS`. -/
def docs : FileInfo :=
  { get_path_str := fun _ => "DOCS"
    get_size := 0
    get_stream := goodStream [] }

/-- The default arguments under which nested files keep their directories. -/
def withDirs : Defaults := { get_path_str_arg := true, path_with_dirs := true }

/-! ## Vocabulary of the statements -/

/-- The size in bytes that the constructor passes to `file_disk_setup`. -/
def Image.requested_bytes (size : FloppySize) : Nat := size.toNat * BYTES_IN_KB

/-- The table of section 8, item 1 of the spec: the byte length of the image
for each selector. -/
def totalBytes : FloppySize → Nat
  | ._360K => 368640
  | ._720K => 737280
  | ._1200K => 1228800
  | ._1440K => 1474560
  | ._2880K => 2949120

/-- What `f_setcp` answers in the constructor: result code and next state. -/
def Image.setcp_step {σ : Type} (e : Engine σ) (filename : String) (size : FloppySize)
    (code_page : Int) (s : σ) : FRESULT × σ :=
  e.f_setcp code_page (e.file_disk_setup filename (Image.requested_bytes size) s).2

/-- What `f_mkfs` answers when it is called in the state `f_setcp` left. -/
def Image.mkfs_step {σ : Type} (e : Engine σ) (filename : String) (size : FloppySize)
    (code_page : Int) (s : σ) : FRESULT × σ :=
  e.f_mkfs (Image.options size) (Image.setcp_step e filename size code_page s).2

/-- What `f_mount(fs, "", 1)` answers when it is called in the state `f_mkfs`
left. -/
def Image.mount_step {σ : Type} (e : Engine σ) (filename : String) (size : FloppySize)
    (code_page : Int) (s : σ) : FRESULT × σ :=
  e.f_mount true 1 (Image.mkfs_step e filename size code_page s).2

/-- The calls issued by the constructor. -/
def Image.construct_calls {σ : Type} (e : Engine σ) (filename : String) (size : FloppySize)
    (code_page : Int) (s : σ) : List Call :=
  (Image.construct e filename size code_page s).calls

/-- The destructor run on the object, and in the engine state, that the
constructor left: its calls and the engine state after it. -/
def Image.destruct_outcome {σ : Type} (e : Engine σ) (filename : String) (size : FloppySize)
    (code_page : Int) (s : σ) : Outcome σ Unit :=
  Image.destruct e (Image.construct e filename size code_page s).ret
    (Image.construct e filename size code_page s).state

/-- State of the engine `diskBacked`: the bytes the host can still provide,
the capacity of the backing store when one is set up, and whether a volume is
formatted and mounted. -/
structure Disk where
  host_bytes : Nat
  device : Option Nat
  formatted : Bool
  mounted : Bool
  deriving DecidableEq, Repr

/-- An engine whose format and mount need the backing store.
`file_disk_setup` succeeds when the host can provide the requested bytes;
`f_setcp` only selects a code page and always succeeds; `f_mkfs` and
`f_mount(fs, "", 1)` answer 3 (not ready) without a backing store; the file
calls answer 12 (not enabled) without a mounted volume, and `f_write` writes
in full otherwise. -/
def diskBacked : Engine Disk where
  file_disk_setup := fun _ size s =>
    if size ≤ s.host_bytes then (true, { s with device := some size })
    else (false, { s with device := none })
  file_disk_free := fun s => { s with device := none }
  f_setcp := fun _ s => (0, s)
  f_mkfs := fun _ s =>
    if s.device.isSome then (0, { s with formatted := true }) else (3, s)
  f_mount := fun fs _ s =>
    if fs then
      if s.device.isSome && s.formatted then (0, { s with mounted := true }) else (3, s)
    else (0, { s with mounted := false })
  f_mkdir := fun _ s => (if s.mounted then 0 else 12, s)
  f_open := fun _ _ s => (if s.mounted then 0 else 12, s)
  f_write := fun _ btw s => ((if s.mounted then 0 else 12, if s.mounted then btw else 0), s)
  f_close := fun s => (if s.mounted then 0 else 12, s)

/-- A host that cannot provide a single byte for the backing store. -/
def hostFull : Disk := { host_bytes := 0, device := none, formatted := false, mounted := false }

/-- A host with room for any floppy image. -/
def hostRoomy : Disk :=
  { host_bytes := 4194304, device := none, formatted := false, mounted := false }

/-- The four values of a `MKFS_PARM` that differ between selectors: allocation
unit bytes, root entries, media descriptor, sectors per track. -/
def MKFS_PARM.row (o : MKFS_PARM) : Nat × Nat × Nat × Nat :=
  (o.au_size, o.n_root, o.mdt, o.sec_per_track)

/-- Whether a call asks the disk layer for a backing store. -/
def Call.is_setup : Call → Bool
  | .file_disk_setup _ _ => true
  | _ => false

/-- Whether a call is one of the four that write the tree into the volume:
`f_mkdir`, `f_open`, `f_write`, `f_close`. -/
def Call.materializes : Call → Bool
  | .f_mkdir _ => true
  | .f_open _ _ => true
  | .f_write _ _ => true
  | .f_close => true
  | _ => false

/-- The `mode` with which `add_file` opens its target. -/
def Image.open_mode : List AccessFlag := [AccessFlag.FA_WRITE, AccessFlag.FA_CREATE_ALWAYS]

/-- The buffer and the stream after `seekg(0, ios::beg)` and
`read(buffer, size)` on the node's stream. -/
def File.read_step (file_object : File) : Buffer × fstream :=
  (file_object.info.get_stream.seekg).read file_object.info.get_size

/-- What `f_open` answers in `add_file`. -/
def Image.open_step {σ : Type} (e : Engine σ) (file_object : File) (path_with_dirs : Bool)
    (s : σ) : FRESULT × σ :=
  e.f_open (file_object.info.get_path_str path_with_dirs) Image.open_mode s

/-- What `f_write` answers when it is called in the state `f_open` left, with
the buffer the read produced. -/
def Image.write_step {σ : Type} (e : Engine σ) (file_object : File) (path_with_dirs : Bool)
    (s : σ) : (FRESULT × Nat) × σ :=
  e.f_write file_object.read_step.1 file_object.info.get_size
    (Image.open_step e file_object path_with_dirs s).2

/-- What `f_close` answers when it is called in the state `f_write` left. -/
def Image.close_step {σ : Type} (e : Engine σ) (file_object : File) (path_with_dirs : Bool)
    (s : σ) : FRESULT × σ :=
  e.f_close (Image.write_step e file_object path_with_dirs s).2

/-- The operation that the loop of `add_directory` applies to one child:
`add_directory` for a directory, `add_file(file)` otherwise. -/
def Image.add_child {σ : Type} (e : Engine σ) (d : Defaults) (file : File) (s : σ) :
    Outcome σ Bool :=
  match file with
  | .file info => Image.add_file e (.file info) d.path_with_dirs s
  | .directory dir => Image.add_directory e d dir s

/-- The children operations applied one after the other, each in the engine
state its predecessor left, whatever they return: the final state and all
calls issued. -/
def Image.run_children {σ : Type} (e : Engine σ) (d : Defaults) : List File → σ → σ × List Call
  | [], s => (s, [])
  | file :: rest, s =>
    let o := Image.add_child e d file s
    let r := Image.run_children e d rest o.state
    (r.1, o.calls ++ r.2)

/-- The result of the `i`-th child operation, run in the state that the
operations of the children before it left. -/
def Image.child_result {σ : Type} (e : Engine σ) (d : Defaults) (files : List File) (s : σ)
    (i : Nat) : Option Bool :=
  (files.get? i).map fun file =>
    (Image.add_child e d file (Image.run_children e d (files.take i) s).1).ret

/-- The condition `stream->rdstate() && !stream->eof()` of `add_file`,
evaluated after the seek and the read. -/
def File.stream_error (file_object : File) : Bool :=
  file_object.read_step.2.rdstate && !file_object.read_step.2.eof

/-- A node of declared size 5 whose source ends after the two bytes "hi". -/
def truncated : FileInfo :=
  { get_path_str := fun with_dirs => if with_dirs then "DOCS/SHORT.TXT" else "SHORT.TXT"
    get_size := 5
    get_stream := goodStream [104, 105] }

/-- What `f_mkdir` answers in `add_directory`. -/
def Image.mkdir_step {σ : Type} (e : Engine σ) (d : Defaults) (dir : Directory) (s : σ) :
    FRESULT × σ :=
  e.f_mkdir (dir.info.get_path_str d.get_path_str_arg) s

/-- The directory `DOCS` holding `README.TXT`, a subdirectory with the
truncated file, and `README.TXT` once more. -/
def docsTree : Directory :=
  .mk docs [.file readme, .directory (.mk docs [.file truncated]), .file readme]

/-! ## Construction and destruction -/

theorem construct_setcp_fails {σ : Type} (e : Engine σ) (filename : String)
    (size : FloppySize) (code_page : Int) (s : σ)
    (h : (Image.setcp_step e filename size code_page s).1 ≠ 0) :
    Image.construct e filename size code_page s =
      { ret := { open_ := false }
        state := e.file_disk_free (Image.setcp_step e filename size code_page s).2
        calls := [Call.file_disk_setup filename (Image.requested_bytes size),
          Call.f_setcp code_page, Call.file_disk_free] } := by
  simp only [Image.setcp_step, Image.requested_bytes] at h
  simp [Image.construct, Image.error, Image.setcp_step, Image.requested_bytes, h]

theorem construct_mkfs_fails {σ : Type} (e : Engine σ) (filename : String)
    (size : FloppySize) (code_page : Int) (s : σ)
    (h1 : (Image.setcp_step e filename size code_page s).1 = 0)
    (h2 : (Image.mkfs_step e filename size code_page s).1 ≠ 0) :
    Image.construct e filename size code_page s =
      { ret := { open_ := false }
        state := e.file_disk_free (Image.mkfs_step e filename size code_page s).2
        calls := [Call.file_disk_setup filename (Image.requested_bytes size),
          Call.f_setcp code_page, Call.f_mkfs (Image.options size), Call.file_disk_free] } := by
  simp only [Image.mkfs_step, Image.setcp_step, Image.requested_bytes] at h1 h2
  simp [Image.construct, Image.error, Image.mkfs_step, Image.setcp_step,
    Image.requested_bytes, h1, h2]

theorem construct_mount_fails {σ : Type} (e : Engine σ) (filename : String)
    (size : FloppySize) (code_page : Int) (s : σ)
    (h1 : (Image.setcp_step e filename size code_page s).1 = 0)
    (h2 : (Image.mkfs_step e filename size code_page s).1 = 0)
    (h3 : (Image.mount_step e filename size code_page s).1 ≠ 0) :
    Image.construct e filename size code_page s =
      { ret := { open_ := false }
        state := e.file_disk_free (Image.mount_step e filename size code_page s).2
        calls := [Call.file_disk_setup filename (Image.requested_bytes size),
          Call.f_setcp code_page, Call.f_mkfs (Image.options size), Call.f_mount true 1,
          Call.file_disk_free] } := by
  simp only [Image.mount_step, Image.mkfs_step, Image.setcp_step, Image.requested_bytes]
    at h1 h2 h3
  simp [Image.construct, Image.error, Image.mount_step, Image.mkfs_step, Image.setcp_step,
    Image.requested_bytes, h1, h2, h3]

theorem construct_succeeds {σ : Type} (e : Engine σ) (filename : String)
    (size : FloppySize) (code_page : Int) (s : σ)
    (h1 : (Image.setcp_step e filename size code_page s).1 = 0)
    (h2 : (Image.mkfs_step e filename size code_page s).1 = 0)
    (h3 : (Image.mount_step e filename size code_page s).1 = 0) :
    Image.construct e filename size code_page s =
      { ret := { open_ := true }
        state := (Image.mount_step e filename size code_page s).2
        calls := [Call.file_disk_setup filename (Image.requested_bytes size),
          Call.f_setcp code_page, Call.f_mkfs (Image.options size), Call.f_mount true 1] } := by
  simp only [Image.mount_step, Image.mkfs_step, Image.setcp_step, Image.requested_bytes]
    at h1 h2 h3
  simp [Image.construct, Image.mount_step, Image.mkfs_step, Image.setcp_step,
    Image.requested_bytes, h1, h2, h3]

/-- C1: for every selector, code page and engine, `is_open()` right after
construction is true exactly when set-code-page, format and mount all
returned success; it is false as soon as one of the three fails. -/
theorem is_open_iff_all_steps_succeed {σ : Type} (e : Engine σ) (filename : String)
    (size : FloppySize) (code_page : Int) (s : σ) :
    (Image.construct e filename size code_page s).ret.is_open = true ↔
      (Image.setcp_step e filename size code_page s).1 = 0 ∧
      (Image.mkfs_step e filename size code_page s).1 = 0 ∧
      (Image.mount_step e filename size code_page s).1 = 0 := by
  by_cases h1 : (Image.setcp_step e filename size code_page s).1 = 0
  · by_cases h2 : (Image.mkfs_step e filename size code_page s).1 = 0
    · by_cases h3 : (Image.mount_step e filename size code_page s).1 = 0
      · rw [construct_succeeds e filename size code_page s h1 h2 h3]
        simp [Image.is_open, h1, h2, h3]
      · rw [construct_mount_fails e filename size code_page s h1 h2 h3]
        simp [Image.is_open, h3]
    · rw [construct_mkfs_fails e filename size code_page s h1 h2]
      simp [Image.is_open, h2]
  · rw [construct_setcp_fails e filename size code_page s h1]
    simp [Image.is_open, h1]

/-- C4 as stated fails: for the 2880K selector the constructor passes 224 root
entries to format, not 240. -/
theorem options_2880K_root_entries_not_240 :
    (Image.options FloppySize._2880K).row ≠ (1024, 240, 0xF0, 36) ∧
      (Image.options FloppySize._2880K).n_root = 224 := by
  decide

/-- C4, amended: the parameter selection is total over the five selectors,
the values are 360K -> (1024, 112, 0xFD, 9), 720K -> (1024, 112, 0xF9, 9),
1200K -> (512, 224, 0xF9, 15), 1440K -> (512, 224, 0xF0, 18),
2880K -> (1024, 224, 0xF0, 36), head count and FAT copies are 2 for every
selector, and every format call of the constructor carries exactly these
parameters. -/
theorem options_table {σ : Type} (e : Engine σ) (filename : String) (size : FloppySize)
    (code_page : Int) (s : σ) :
    (Image.options size).row =
        (match size with
          | ._360K => (1024, 112, 0xFD, 9)
          | ._720K => (1024, 112, 0xF9, 9)
          | ._1200K => (512, 224, 0xF9, 15)
          | ._1440K => (512, 224, 0xF0, 18)
          | ._2880K => (1024, 224, 0xF0, 36)) ∧
      (Image.options size).n_heads = 2 ∧ (Image.options size).n_fat = 2 ∧
      (∀ o, Call.f_mkfs o ∈ Image.construct_calls e filename size code_page s →
        o = Image.options size) ∧
      ((Image.setcp_step e filename size code_page s).1 = 0 →
        Call.f_mkfs (Image.options size) ∈ Image.construct_calls e filename size code_page s) := by
  refine ⟨by cases size <;> rfl, by cases size <;> rfl, by cases size <;> rfl, ?_, ?_⟩
  · intro o ho
    unfold Image.construct_calls at ho
    by_cases h1 : (Image.setcp_step e filename size code_page s).1 = 0
    · by_cases h2 : (Image.mkfs_step e filename size code_page s).1 = 0
      · by_cases h3 : (Image.mount_step e filename size code_page s).1 = 0
        · rw [construct_succeeds e filename size code_page s h1 h2 h3] at ho
          simpa using ho
        · rw [construct_mount_fails e filename size code_page s h1 h2 h3] at ho
          simpa using ho
      · rw [construct_mkfs_fails e filename size code_page s h1 h2] at ho
        simpa using ho
    · rw [construct_setcp_fails e filename size code_page s h1] at ho
      simp at ho
  · intro h1
    unfold Image.construct_calls
    by_cases h2 : (Image.mkfs_step e filename size code_page s).1 = 0
    · by_cases h3 : (Image.mount_step e filename size code_page s).1 = 0
      · rw [construct_succeeds e filename size code_page s h1 h2 h3]
        simp
      · rw [construct_mount_fails e filename size code_page s h1 h2 h3]
        simp
    · rw [construct_mkfs_fails e filename size code_page s h1 h2]
      simp

/-- C6: construct-then-destroy releases the block device exactly once, in the
calls issued and in what reaches the engine.  When set-code-page fails, format
and mount are not attempted; when format fails, mount is not attempted; in
every failing case the constructor ends by applying the release to the engine
and the destructor issues no call and leaves the engine state as it is.  When
all steps succeed, the constructor releases nothing, and the destructor
applies unmount and then the release to the engine. -/
theorem construct_then_destruct_releases_once {σ : Type} (e : Engine σ) (filename : String)
    (size : FloppySize) (code_page : Int) (s : σ) :
    ((Image.setcp_step e filename size code_page s).1 ≠ 0 →
        Image.construct e filename size code_page s =
          { ret := { open_ := false }
            state := e.file_disk_free (Image.setcp_step e filename size code_page s).2
            calls := [Call.file_disk_setup filename (Image.requested_bytes size),
              Call.f_setcp code_page, Call.file_disk_free] } ∧
        Image.destruct_outcome e filename size code_page s =
          { ret := ()
            state := e.file_disk_free (Image.setcp_step e filename size code_page s).2
            calls := [] }) ∧
      ((Image.setcp_step e filename size code_page s).1 = 0 →
        (Image.mkfs_step e filename size code_page s).1 ≠ 0 →
        Image.construct e filename size code_page s =
          { ret := { open_ := false }
            state := e.file_disk_free (Image.mkfs_step e filename size code_page s).2
            calls := [Call.file_disk_setup filename (Image.requested_bytes size),
              Call.f_setcp code_page, Call.f_mkfs (Image.options size),
              Call.file_disk_free] } ∧
        Image.destruct_outcome e filename size code_page s =
          { ret := ()
            state := e.file_disk_free (Image.mkfs_step e filename size code_page s).2
            calls := [] }) ∧
      ((Image.setcp_step e filename size code_page s).1 = 0 →
        (Image.mkfs_step e filename size code_page s).1 = 0 →
        (Image.mount_step e filename size code_page s).1 ≠ 0 →
        Image.construct e filename size code_page s =
          { ret := { open_ := false }
            state := e.file_disk_free (Image.mount_step e filename size code_page s).2
            calls := [Call.file_disk_setup filename (Image.requested_bytes size),
              Call.f_setcp code_page, Call.f_mkfs (Image.options size), Call.f_mount true 1,
              Call.file_disk_free] } ∧
        Image.destruct_outcome e filename size code_page s =
          { ret := ()
            state := e.file_disk_free (Image.mount_step e filename size code_page s).2
            calls := [] }) ∧
      ((Image.setcp_step e filename size code_page s).1 = 0 →
        (Image.mkfs_step e filename size code_page s).1 = 0 →
        (Image.mount_step e filename size code_page s).1 = 0 →
        Image.construct e filename size code_page s =
          { ret := { open_ := true }
            state := (Image.mount_step e filename size code_page s).2
            calls := [Call.file_disk_setup filename (Image.requested_bytes size),
              Call.f_setcp code_page, Call.f_mkfs (Image.options size),
              Call.f_mount true 1] } ∧
        Image.destruct_outcome e filename size code_page s =
          { ret := ()
            state := e.file_disk_free
              (e.f_mount false 0 (Image.mount_step e filename size code_page s).2).2
            calls := [Call.f_mount false 0, Call.file_disk_free] }) ∧
      ((Image.construct e filename size code_page s).calls ++
        (Image.destruct_outcome e filename size code_page s).calls).count
          Call.file_disk_free = 1 := by
  unfold Image.destruct_outcome
  refine ⟨?_, ?_, ?_, ?_, ?_⟩
  · intro h1
    rw [construct_setcp_fails e filename size code_page s h1]
    exact ⟨rfl, by simp [Image.destruct]⟩
  · intro h1 h2
    rw [construct_mkfs_fails e filename size code_page s h1 h2]
    exact ⟨rfl, by simp [Image.destruct]⟩
  · intro h1 h2 h3
    rw [construct_mount_fails e filename size code_page s h1 h2 h3]
    exact ⟨rfl, by simp [Image.destruct]⟩
  · intro h1 h2 h3
    rw [construct_succeeds e filename size code_page s h1 h2 h3]
    exact ⟨rfl, by simp [Image.destruct]⟩
  · by_cases h1 : (Image.setcp_step e filename size code_page s).1 = 0
    · by_cases h2 : (Image.mkfs_step e filename size code_page s).1 = 0
      · by_cases h3 : (Image.mount_step e filename size code_page s).1 = 0
        · rw [construct_succeeds e filename size code_page s h1 h2 h3]
          simp [Image.destruct]
        · rw [construct_mount_fails e filename size code_page s h1 h2 h3]
          simp [Image.destruct]
      · rw [construct_mkfs_fails e filename size code_page s h1 h2]
        simp [Image.destruct]
    · rw [construct_setcp_fails e filename size code_page s h1]
      simp [Image.destruct]

/-- C6 at concrete inputs.  On the scripted engine a failing code-page step
ends construction with the release and destruction issues nothing.  On the
engine that needs its backing store, a successful construction leaves the
store set up and the volume mounted, and destruction unmounts, then releases:
the engine ends with no store and nothing mounted. -/
theorem construct_then_destruct_releases_once_witness :
    (Image.construct scripted "a.img" FloppySize._1440K 437 [0, 1] =
        { ret := { open_ := false }
          state := []
          calls := [Call.file_disk_setup "a.img" 1474560, Call.f_setcp 437,
            Call.file_disk_free] } ∧
      Image.destruct_outcome scripted "a.img" FloppySize._1440K 437 [0, 1] =
        { ret := (), state := [], calls := [] }) ∧
    (Image.construct diskBacked "a.img" FloppySize._1440K 437 hostRoomy =
        { ret := { open_ := true }
          state :=
            { host_bytes := 4194304, device := some 1474560, formatted := true, mounted := true }
          calls := [Call.file_disk_setup "a.img" 1474560, Call.f_setcp 437,
            Call.f_mkfs (Image.options FloppySize._1440K), Call.f_mount true 1] } ∧
      Image.destruct_outcome diskBacked "a.img" FloppySize._1440K 437 hostRoomy =
        { ret := ()
          state :=
            { host_bytes := 4194304, device := none, formatted := true, mounted := false }
          calls := [Call.f_mount false 0, Call.file_disk_free] }) :=
  ⟨(construct_then_destruct_releases_once scripted "a.img" FloppySize._1440K 437 [0, 1]).1
      (by decide),
    (construct_then_destruct_releases_once diskBacked "a.img" FloppySize._1440K 437
      hostRoomy).2.2.2.1 (by decide) (by decide) (by decide)⟩

/-- C7, the code at the failing input: the host cannot provide the backing
store and `file_disk_setup` reports the failure.  The constructor does not
look at it: set-code-page and format are still issued, and construction ends
at `error:` only because format, finding no store, fails.  On an engine whose
steps succeed whatever the allocation did, mount is issued as well and
`is_open()` is true. -/
theorem construct_after_failed_allocation :
    (diskBacked.file_disk_setup "a.img" (Image.requested_bytes FloppySize._1440K)
        hostFull).1 = false ∧
      (Image.construct diskBacked "a.img" FloppySize._1440K 437 hostFull).calls =
        [Call.file_disk_setup "a.img" 1474560, Call.f_setcp 437,
          Call.f_mkfs (Image.options FloppySize._1440K), Call.file_disk_free] ∧
      (Image.construct diskBacked "a.img" FloppySize._1440K 437 hostFull).ret.is_open = false ∧
      (scripted.file_disk_setup "a.img" (Image.requested_bytes FloppySize._1440K)
        [1]).1 = false ∧
      (Image.construct scripted "a.img" FloppySize._1440K 437 [1]).calls =
        [Call.file_disk_setup "a.img" 1474560, Call.f_setcp 437,
          Call.f_mkfs (Image.options FloppySize._1440K), Call.f_mount true 1] ∧
      (Image.construct scripted "a.img" FloppySize._1440K 437 [1]).ret.is_open = true := by
  decide

/-! ## `add_file` -/

theorem add_file_open_fails {σ : Type} (e : Engine σ) (file_object : File)
    (path_with_dirs : Bool) (s : σ)
    (h : (Image.open_step e file_object path_with_dirs s).1 ≠ 0) :
    Image.add_file e file_object path_with_dirs s =
      { ret := false
        state := (Image.open_step e file_object path_with_dirs s).2
        calls := [Call.f_open (file_object.info.get_path_str path_with_dirs) Image.open_mode] } := by
  simp only [Image.open_step, Image.open_mode] at h
  simp [Image.add_file, Image.open_step, Image.open_mode, h]

theorem add_file_stream_fails {σ : Type} (e : Engine σ) (file_object : File)
    (path_with_dirs : Bool) (s : σ)
    (h1 : (Image.open_step e file_object path_with_dirs s).1 = 0)
    (h2 : file_object.stream_error = true) :
    Image.add_file e file_object path_with_dirs s =
      { ret := false
        state := (Image.open_step e file_object path_with_dirs s).2
        calls := [Call.f_open (file_object.info.get_path_str path_with_dirs) Image.open_mode] } := by
  simp only [Image.open_step, Image.open_mode] at h1
  simp only [File.stream_error, File.read_step] at h2
  simp [Image.add_file, Image.open_step, Image.open_mode, h1, h2]

theorem add_file_write_fails {σ : Type} (e : Engine σ) (file_object : File)
    (path_with_dirs : Bool) (s : σ)
    (h1 : (Image.open_step e file_object path_with_dirs s).1 = 0)
    (h2 : file_object.stream_error = false)
    (h3 : (Image.write_step e file_object path_with_dirs s).1.1 ≠ 0 ∨
      (Image.write_step e file_object path_with_dirs s).1.2 ≠ file_object.info.get_size) :
    Image.add_file e file_object path_with_dirs s =
      { ret := false
        state := (Image.write_step e file_object path_with_dirs s).2
        calls := [Call.f_open (file_object.info.get_path_str path_with_dirs) Image.open_mode,
          Call.f_write file_object.read_step.1 file_object.info.get_size] } := by
  simp only [Image.write_step, Image.open_step, Image.open_mode, File.read_step] at h1 h3
  simp only [File.stream_error, File.read_step] at h2
  simp [Image.add_file, Image.write_step, Image.open_step, Image.open_mode,
    File.read_step, h1, h2, h3]

theorem add_file_close_fails {σ : Type} (e : Engine σ) (file_object : File)
    (path_with_dirs : Bool) (s : σ)
    (h1 : (Image.open_step e file_object path_with_dirs s).1 = 0)
    (h2 : file_object.stream_error = false)
    (h3 : (Image.write_step e file_object path_with_dirs s).1.1 = 0)
    (h4 : (Image.write_step e file_object path_with_dirs s).1.2 = file_object.info.get_size)
    (h5 : (Image.close_step e file_object path_with_dirs s).1 ≠ 0) :
    Image.add_file e file_object path_with_dirs s =
      { ret := false
        state := (Image.close_step e file_object path_with_dirs s).2
        calls := [Call.f_open (file_object.info.get_path_str path_with_dirs) Image.open_mode,
          Call.f_write file_object.read_step.1 file_object.info.get_size, Call.f_close] } := by
  simp only [Image.close_step, Image.write_step, Image.open_step, Image.open_mode,
    File.read_step] at h1 h3 h4 h5
  simp only [File.stream_error, File.read_step] at h2
  simp [Image.add_file, Image.close_step, Image.write_step, Image.open_step,
    Image.open_mode, File.read_step, h1, h2, h3, h4, h5]

theorem add_file_succeeds {σ : Type} (e : Engine σ) (file_object : File)
    (path_with_dirs : Bool) (s : σ)
    (h1 : (Image.open_step e file_object path_with_dirs s).1 = 0)
    (h2 : file_object.stream_error = false)
    (h3 : (Image.write_step e file_object path_with_dirs s).1.1 = 0)
    (h4 : (Image.write_step e file_object path_with_dirs s).1.2 = file_object.info.get_size)
    (h5 : (Image.close_step e file_object path_with_dirs s).1 = 0) :
    Image.add_file e file_object path_with_dirs s =
      { ret := true
        state := (Image.close_step e file_object path_with_dirs s).2
        calls := [Call.f_open (file_object.info.get_path_str path_with_dirs) Image.open_mode,
          Call.f_write file_object.read_step.1 file_object.info.get_size, Call.f_close] } := by
  simp only [Image.close_step, Image.write_step, Image.open_step, Image.open_mode,
    File.read_step] at h1 h3 h4 h5
  simp only [File.stream_error, File.read_step] at h2
  simp [Image.add_file, Image.close_step, Image.write_step, Image.open_step,
    Image.open_mode, File.read_step, h1, h2, h3, h4, h5]

/-- When the stream check lets the file through, `add_file` returns true
exactly when open-create, the write in full and close all succeed. -/
theorem add_file_ret_iff {σ : Type} (e : Engine σ) (file_object : File)
    (path_with_dirs : Bool) (s : σ) (h : file_object.stream_error = false) :
    (Image.add_file e file_object path_with_dirs s).ret = true ↔
      (Image.open_step e file_object path_with_dirs s).1 = 0 ∧
      (Image.write_step e file_object path_with_dirs s).1.1 = 0 ∧
      (Image.write_step e file_object path_with_dirs s).1.2 = file_object.info.get_size ∧
      (Image.close_step e file_object path_with_dirs s).1 = 0 := by
  by_cases h1 : (Image.open_step e file_object path_with_dirs s).1 = 0
  · by_cases h3 : (Image.write_step e file_object path_with_dirs s).1.1 = 0
    · by_cases h4 : (Image.write_step e file_object path_with_dirs s).1.2 =
          file_object.info.get_size
      · by_cases h5 : (Image.close_step e file_object path_with_dirs s).1 = 0
        · rw [add_file_succeeds e file_object path_with_dirs s h1 h h3 h4 h5]
          simp [h1, h3, h4, h5]
        · rw [add_file_close_fails e file_object path_with_dirs s h1 h h3 h4 h5]
          simp [h5]
      · rw [add_file_write_fails e file_object path_with_dirs s h1 h (Or.inr h4)]
        simp [h4]
    · rw [add_file_write_fails e file_object path_with_dirs s h1 h (Or.inl h3)]
      simp [h3]
  · rw [add_file_open_fails e file_object path_with_dirs s h1]
    simp [h1]

/-- A read that leaves no state bit set has stored the first `size` bytes of
the source, and the source has that many. -/
theorem read_step_of_good (file_object : File)
    (h : file_object.read_step.2.rdstate = false) :
    file_object.info.get_size ≤ file_object.info.get_stream.bytes.length ∧
      file_object.read_step.1 =
        (file_object.info.get_stream.bytes.take file_object.info.get_size).map some := by
  unfold File.read_step fstream.read fstream.seekg fstream.rdstate at *
  simp only [] at h ⊢
  split_ifs at h ⊢ <;> simp_all

/-- C3: when the source delivers its declared size without a stream error
(the buffer then holds the first `size` bytes of the source), `add_file`
returns true exactly when open-create succeeded, the write returned success
with bytes written equal to the declared size, and close returned success.
So a true result means bytes written equal the declared size, and a close
failure gives false after a write that succeeded in full. -/
theorem add_file_true_iff_open_write_close {σ : Type} (e : Engine σ) (file_object : File)
    (path_with_dirs : Bool) (s : σ) (h : file_object.read_step.2.rdstate = false) :
    (file_object.info.get_size ≤ file_object.info.get_stream.bytes.length ∧
        file_object.read_step.1 =
          (file_object.info.get_stream.bytes.take file_object.info.get_size).map some) ∧
      ((Image.add_file e file_object path_with_dirs s).ret = true ↔
        (Image.open_step e file_object path_with_dirs s).1 = 0 ∧
        (Image.write_step e file_object path_with_dirs s).1.1 = 0 ∧
        (Image.write_step e file_object path_with_dirs s).1.2 = file_object.info.get_size ∧
        (Image.close_step e file_object path_with_dirs s).1 = 0) ∧
      ((Image.add_file e file_object path_with_dirs s).ret = true →
        (Image.write_step e file_object path_with_dirs s).1.2 = file_object.info.get_size) ∧
      ((Image.open_step e file_object path_with_dirs s).1 = 0 →
        (Image.write_step e file_object path_with_dirs s).1.1 = 0 →
        (Image.write_step e file_object path_with_dirs s).1.2 = file_object.info.get_size →
        (Image.close_step e file_object path_with_dirs s).1 ≠ 0 →
        (Image.add_file e file_object path_with_dirs s).ret = false ∧
        (Image.add_file e file_object path_with_dirs s).calls =
          [Call.f_open (file_object.info.get_path_str path_with_dirs) Image.open_mode,
            Call.f_write file_object.read_step.1 file_object.info.get_size, Call.f_close]) := by
  have hs : file_object.stream_error = false := by simp [File.stream_error, h]
  refine ⟨read_step_of_good file_object h, add_file_ret_iff e file_object path_with_dirs s hs,
    ?_, ?_⟩
  · intro hr
    exact ((add_file_ret_iff e file_object path_with_dirs s hs).mp hr).2.2.1
  · intro h1 h3 h4 h5
    rw [add_file_close_fails e file_object path_with_dirs s h1 hs h3 h4 h5]
    exact ⟨rfl, rfl⟩

/-- C3 at a concrete input: "hello" written in full and closed gives true;
the same with a failing close gives false. -/
theorem add_file_true_iff_open_write_close_witness :
    (Image.add_file scripted (.file readme) true [0, 0, 5, 0]).ret = true ∧
      (Image.add_file scripted (.file readme) true [0, 0, 5, 1]).ret = false :=
  ⟨(add_file_true_iff_open_write_close scripted (.file readme) true [0, 0, 5, 0]
      (by decide)).2.1.mpr (by decide),
    ((add_file_true_iff_open_write_close scripted (.file readme) true [0, 0, 5, 1]
      (by decide)).2.2.2 (by decide) (by decide) (by decide) (by decide)).1⟩

/-- C8, the code at the failing input: open-create succeeds, the engine writes
3 of the 5 bytes, and `add_file` returns false having issued `f_open` and
`f_write` only; no `f_close` follows. -/
theorem add_file_short_write_skips_close :
    (Image.add_file scripted (.file readme) false [0, 0, 3]).ret = false ∧
      (Image.add_file scripted (.file readme) false [0, 0, 3]).calls =
        [Call.f_open "README.TXT" Image.open_mode,
          Call.f_write [some 104, some 101, some 108, some 108, some 111] 5] ∧
      Call.f_close ∉ (Image.add_file scripted (.file readme) false [0, 0, 3]).calls := by
  decide

/-- C9, the code at the failing input: the source ends after 2 of the 5
declared bytes and the read stops at end-of-file with `failbit` and `eofbit`
set.  The check after the read lets the file through, and `add_file` writes
the 5-byte buffer, of which the last 3 bytes were never filled, closes and
returns true. -/
theorem add_file_accepts_short_source :
    (File.file truncated).info.get_stream.bytes.length < (File.file truncated).info.get_size ∧
      (File.file truncated).read_step.2.eof = true ∧
      (Image.add_file scripted (.file truncated) false [0, 0, 5, 0]).ret = true ∧
      (Image.add_file scripted (.file truncated) false [0, 0, 5, 0]).calls =
        [Call.f_open "SHORT.TXT" Image.open_mode,
          Call.f_write [some 104, some 105, none, none, none] 5, Call.f_close] := by
  decide

/-- C10: `operator<<` is `add_directory` on a directory and
`add_file(node, false)` on any other node, with the same return value, engine
state and calls.  `add_file` opens exactly `get_path_str(path_with_dirs)`, so
`operator<<` on a file opens `get_path_str(false)` and `add_file(node, true)`
opens `get_path_str(true)`; what `get_path_str(true)` is has no influence on
`operator<<` for a file. -/
theorem operator_lshift_dispatch {σ : Type} (e : Engine σ) (d : Defaults) (file_object : File)
    (s : σ) :
    (file_object.is_directory = true → ∃ dir, file_object = .directory dir ∧
        Image.operator_lshift e d file_object s = Image.add_directory e d dir s) ∧
      (file_object.is_directory = false →
        Image.operator_lshift e d file_object s = Image.add_file e file_object false s) ∧
      (∀ path_with_dirs, ∃ rest, (Image.add_file e file_object path_with_dirs s).calls =
        Call.f_open (file_object.info.get_path_str path_with_dirs) Image.open_mode :: rest ∧
        ∀ path mode, Call.f_open path mode ∉ rest) ∧
      (∀ other : FileInfo, other.get_path_str false = file_object.info.get_path_str false →
        other.get_size = file_object.info.get_size →
        other.get_stream = file_object.info.get_stream →
        Image.operator_lshift e d (.file other) s = Image.add_file e file_object false s) := by
  refine ⟨?_, ?_, ?_, ?_⟩
  · intro h
    cases file_object with
    | file info => simp [File.is_directory] at h
    | directory dir => exact ⟨dir, rfl, rfl⟩
  · intro h
    cases file_object with
    | file info => rfl
    | directory dir => simp [File.is_directory] at h
  · intro path_with_dirs
    unfold Image.add_file Image.open_mode
    simp only []
    split_ifs <;> simp
  · intro other h1 h2 h3
    simp only [Image.operator_lshift, Image.add_file, File.info, h1, h2, h3]

/-- C10 at concrete inputs: `operator<<` on the file `DOCS/README.TXT` opens
`README.TXT`, and on the directory node it is `add_directory`. -/
theorem operator_lshift_dispatch_witness :
    Image.operator_lshift scripted withDirs (.file readme) [] =
        Image.add_file scripted (.file readme) false [] ∧
      (Image.operator_lshift scripted withDirs (.file readme) []).calls.head? =
        some (Call.f_open "README.TXT" Image.open_mode) ∧
      ∃ dir, File.directory docsTree = .directory dir ∧
        Image.operator_lshift scripted withDirs (.directory docsTree) [] =
          Image.add_directory scripted withDirs dir [] :=
  ⟨(operator_lshift_dispatch scripted withDirs (.file readme) []).2.1 (by decide), by decide,
    (operator_lshift_dispatch scripted withDirs (.directory docsTree) []).1 (by decide)⟩

/-! ## `add_directory` -/

theorem add_directory_unfold {σ : Type} (e : Engine σ) (d : Defaults) (dir : Directory)
    (s : σ) :
    Image.add_directory e d dir s =
      if (Image.mkdir_step e d dir s).1 ≠ 0 ∧ (Image.mkdir_step e d dir s).1 ≠ FR_EXIST then
        { ret := false, state := (Image.mkdir_step e d dir s).2,
          calls := [Call.f_mkdir (dir.info.get_path_str d.get_path_str_arg)] }
      else
        { ret := (Image.add_directory.loop e d dir.files (Image.mkdir_step e d dir s).2).ret
          state := (Image.add_directory.loop e d dir.files (Image.mkdir_step e d dir s).2).state
          calls := Call.f_mkdir (dir.info.get_path_str d.get_path_str_arg) ::
            (Image.add_directory.loop e d dir.files (Image.mkdir_step e d dir s).2).calls } := by
  cases dir with
  | mk info files =>
    rw [Image.add_directory]
    simp only [Image.mkdir_step, Directory.info, Directory.files]

theorem loop_nil {σ : Type} (e : Engine σ) (d : Defaults) (s : σ) :
    Image.add_directory.loop e d [] s = { ret := true, state := s, calls := [] } := by
  rw [Image.add_directory.loop]

theorem loop_cons {σ : Type} (e : Engine σ) (d : Defaults) (file : File) (rest : List File)
    (s : σ) :
    Image.add_directory.loop e d (file :: rest) s =
      if (Image.add_child e d file s).ret = false then Image.add_child e d file s
      else
        { ret := (Image.add_directory.loop e d rest (Image.add_child e d file s).state).ret
          state := (Image.add_directory.loop e d rest (Image.add_child e d file s).state).state
          calls := (Image.add_child e d file s).calls ++
            (Image.add_directory.loop e d rest (Image.add_child e d file s).state).calls } := by
  cases file with
  | file info =>
    rw [Image.add_directory.loop]
    simp only [Image.add_child]
    split_ifs <;> simp_all
  | directory dir =>
    rw [Image.add_directory.loop]
    simp only [Image.add_child]
    split_ifs <;> simp_all

theorem child_result_zero {σ : Type} (e : Engine σ) (d : Defaults) (file : File)
    (rest : List File) (s : σ) :
    Image.child_result e d (file :: rest) s 0 = some (Image.add_child e d file s).ret := by
  simp [Image.child_result, Image.run_children]

theorem child_result_succ {σ : Type} (e : Engine σ) (d : Defaults) (file : File)
    (rest : List File) (s : σ) (i : Nat) :
    Image.child_result e d (file :: rest) s (i + 1) =
      Image.child_result e d rest (Image.add_child e d file s).state i := by
  simp [Image.child_result, Image.run_children]

/-- The loop against the children run one after the other: it returns true
exactly when every child operation does, then having run them all; and when
child `k` is the first to return false, it has run the children up to `k` and
none after. -/
theorem loop_spec {σ : Type} (e : Engine σ) (d : Defaults) (files : List File) :
    ∀ s : σ,
      ((Image.add_directory.loop e d files s).ret = true ↔
        ∀ i, i < files.length → Image.child_result e d files s i = some true) ∧
      ((Image.add_directory.loop e d files s).ret = true →
        (Image.add_directory.loop e d files s).state = (Image.run_children e d files s).1 ∧
        (Image.add_directory.loop e d files s).calls = (Image.run_children e d files s).2) ∧
      (∀ k, (∀ i, i < k → Image.child_result e d files s i = some true) →
        Image.child_result e d files s k = some false →
        (Image.add_directory.loop e d files s).ret = false ∧
        (Image.add_directory.loop e d files s).state =
          (Image.run_children e d (files.take (k + 1)) s).1 ∧
        (Image.add_directory.loop e d files s).calls =
          (Image.run_children e d (files.take (k + 1)) s).2) := by
  induction files with
  | nil =>
    intro s
    rw [loop_nil]
    refine ⟨by simp, by simp [Image.run_children], ?_⟩
    intro k _ hk
    simp [Image.child_result] at hk
  | cons file rest ih =>
    intro s
    rw [loop_cons]
    obtain ⟨ih1, ih2, ih3⟩ := ih (Image.add_child e d file s).state
    by_cases ho : (Image.add_child e d file s).ret = false
    · rw [if_pos ho]
      refine ⟨?_, ?_, ?_⟩
      · constructor
        · intro h
          rw [ho] at h
          exact absurd h (by decide)
        · intro h
          have h0 := h 0 (by simp)
          rw [child_result_zero, ho] at h0
          exact absurd h0 (by decide)
      · intro h
        rw [ho] at h
        exact absurd h (by decide)
      · intro k hlt hk
        cases k with
        | zero => simp [Image.run_children, ho]
        | succ k =>
          have h0 := hlt 0 (by omega)
          rw [child_result_zero, ho] at h0
          exact absurd h0 (by decide)
    · rw [if_neg ho]
      have ht : (Image.add_child e d file s).ret = true := by simpa using ho
      refine ⟨?_, ?_, ?_⟩
      · simp only []
        rw [ih1]
        constructor
        · intro h i hi
          cases i with
          | zero => rw [child_result_zero, ht]
          | succ i =>
            rw [child_result_succ]
            exact h i (by simpa using hi)
        · intro h i hi
          have := h (i + 1) (by simpa using hi)
          rwa [child_result_succ] at this
      · intro h
        obtain ⟨hs, hc⟩ := ih2 h
        simp only [Image.run_children]
        exact ⟨hs, by rw [hc]⟩
      · intro k hlt hk
        cases k with
        | zero =>
          rw [child_result_zero, ht] at hk
          exact absurd hk (by decide)
        | succ k =>
          rw [child_result_succ] at hk
          have hlt2 : ∀ i, i < k →
              Image.child_result e d rest (Image.add_child e d file s).state i = some true := by
            intro i hi
            have := hlt (i + 1) (by omega)
            rwa [child_result_succ] at this
          obtain ⟨hr, hs, hc⟩ := ih3 k hlt2 hk
          simp only [List.take_succ_cons, Image.run_children]
          exact ⟨hr, hs, by rw [hc]⟩

/-- C2: `add_directory` returns true exactly when make-directory returned ok
or already-exists and every child operation, run in the given order, returned
true.  When make-directory fails otherwise, it is the only call issued.  When
child `k` is the first to return false, the calls issued are make-directory
and those of the children up to `k`, in order, and nothing for a later
sibling; when every child returns true the calls are make-directory and those
of all children, in order. -/
theorem add_directory_true_iff {σ : Type} (e : Engine σ) (d : Defaults) (dir : Directory)
    (s : σ) :
    ((Image.add_directory e d dir s).ret = true ↔
        ((Image.mkdir_step e d dir s).1 = 0 ∨ (Image.mkdir_step e d dir s).1 = FR_EXIST) ∧
        ∀ i, i < dir.files.length →
          Image.child_result e d dir.files (Image.mkdir_step e d dir s).2 i = some true) ∧
      ((Image.mkdir_step e d dir s).1 ≠ 0 → (Image.mkdir_step e d dir s).1 ≠ FR_EXIST →
        Image.add_directory e d dir s =
          { ret := false, state := (Image.mkdir_step e d dir s).2,
            calls := [Call.f_mkdir (dir.info.get_path_str d.get_path_str_arg)] }) ∧
      ((Image.mkdir_step e d dir s).1 = 0 ∨ (Image.mkdir_step e d dir s).1 = FR_EXIST →
        ∀ k, (∀ i, i < k →
            Image.child_result e d dir.files (Image.mkdir_step e d dir s).2 i = some true) →
          Image.child_result e d dir.files (Image.mkdir_step e d dir s).2 k = some false →
          Image.add_directory e d dir s =
            { ret := false
              state := (Image.run_children e d (dir.files.take (k + 1))
                (Image.mkdir_step e d dir s).2).1
              calls := Call.f_mkdir (dir.info.get_path_str d.get_path_str_arg) ::
                (Image.run_children e d (dir.files.take (k + 1))
                  (Image.mkdir_step e d dir s).2).2 }) ∧
      ((Image.add_directory e d dir s).ret = true →
        Image.add_directory e d dir s =
          { ret := true
            state := (Image.run_children e d dir.files (Image.mkdir_step e d dir s).2).1
            calls := Call.f_mkdir (dir.info.get_path_str d.get_path_str_arg) ::
              (Image.run_children e d dir.files (Image.mkdir_step e d dir s).2).2 }) := by
  obtain ⟨l1, l2, l3⟩ := loop_spec e d dir.files (Image.mkdir_step e d dir s).2
  rw [add_directory_unfold]
  by_cases hm : (Image.mkdir_step e d dir s).1 ≠ 0 ∧ (Image.mkdir_step e d dir s).1 ≠ FR_EXIST
  · rw [if_pos hm]
    refine ⟨?_, fun _ _ => rfl, ?_, ?_⟩
    · constructor
      · intro h
        simp at h
      · rintro ⟨h | h, _⟩
        · exact absurd h hm.1
        · exact absurd h hm.2
    · rintro (h | h)
      · exact absurd h hm.1
      · exact absurd h hm.2
    · intro h
      simp at h
  · rw [if_neg hm]
    have hok : (Image.mkdir_step e d dir s).1 = 0 ∨ (Image.mkdir_step e d dir s).1 = FR_EXIST := by
      by_cases h0 : (Image.mkdir_step e d dir s).1 = 0
      · exact Or.inl h0
      · by_cases h8 : (Image.mkdir_step e d dir s).1 = FR_EXIST
        · exact Or.inr h8
        · exact absurd ⟨h0, h8⟩ hm
    refine ⟨?_, ?_, ?_, ?_⟩
    · simp only []
      rw [l1]
      exact ⟨fun h => ⟨hok, h⟩, fun h => h.2⟩
    · intro h0 h8
      exact absurd ⟨h0, h8⟩ hm
    · intro _ k hlt hk
      obtain ⟨hr, hs, hc⟩ := l3 k hlt hk
      rw [hr, hs, hc]
    · intro h
      obtain ⟨hs, hc⟩ := l2 h
      simp only [] at h
      rw [h, hs, hc]

/-- C2 at concrete inputs, on the tree `DOCS/{README.TXT, DOCS/{SHORT.TXT},
README.TXT}`: with every engine call succeeding the result is true; when the
write of the second child's file stops after 3 bytes, that child is the first
to fail and nothing is issued for the third child. -/
theorem add_directory_true_iff_witness :
    (Image.add_directory scripted withDirs docsTree
        [0, 0, 0, 5, 0, 8, 0, 0, 5, 0, 0, 0, 5, 0]).ret = true ∧
      Image.add_directory scripted withDirs docsTree [0, 0, 0, 5, 0, 8, 0, 0, 3] =
        { ret := false
          state := (Image.run_children scripted withDirs (docsTree.files.take (1 + 1))
            (Image.mkdir_step scripted withDirs docsTree [0, 0, 0, 5, 0, 8, 0, 0, 3]).2).1
          calls := Call.f_mkdir (docsTree.info.get_path_str withDirs.get_path_str_arg) ::
            (Image.run_children scripted withDirs (docsTree.files.take (1 + 1))
              (Image.mkdir_step scripted withDirs docsTree [0, 0, 0, 5, 0, 8, 0, 0, 3]).2).2 } :=
  ⟨(add_directory_true_iff scripted withDirs docsTree
      [0, 0, 0, 5, 0, 8, 0, 0, 5, 0, 0, 0, 5, 0]).1.mpr ⟨Or.inl (by decide), by decide⟩,
    (add_directory_true_iff scripted withDirs docsTree [0, 0, 0, 5, 0, 8, 0, 0, 3]).2.2.1
      (Or.inl (by decide)) 1 (by decide) (by decide)⟩

/-! ## The size of the block device -/

theorem not_setup_of_materializes (c : Call) (h : c.materializes = true) :
    c.is_setup = false := by
  cases c <;> simp_all [Call.materializes, Call.is_setup]

theorem add_file_calls_materialize {σ : Type} (e : Engine σ) (file_object : File)
    (path_with_dirs : Bool) (s : σ) :
    ∀ c ∈ (Image.add_file e file_object path_with_dirs s).calls, c.materializes = true := by
  unfold Image.add_file
  simp only []
  split_ifs <;> simp [Call.materializes]

mutual
theorem add_directory_calls_materialize {σ : Type} (e : Engine σ) (d : Defaults) :
    ∀ (dir : Directory) (s : σ),
      ∀ c ∈ (Image.add_directory e d dir s).calls, c.materializes = true
  | .mk info files, s => by
    intro c hc
    rw [add_directory_unfold] at hc
    split_ifs at hc
    · simp only [List.mem_singleton] at hc
      rw [hc]
      rfl
    · simp only [List.mem_cons] at hc
      rcases hc with hc | hc
      · rw [hc]
        rfl
      · exact loop_calls_materialize e d files _ c hc
theorem loop_calls_materialize {σ : Type} (e : Engine σ) (d : Defaults) :
    ∀ (files : List File) (s : σ),
      ∀ c ∈ (Image.add_directory.loop e d files s).calls, c.materializes = true
  | [], s => by
    intro c hc
    rw [loop_nil] at hc
    simp at hc
  | .file info :: rest, s => by
    intro c hc
    rw [loop_cons] at hc
    split_ifs at hc
    · exact add_file_calls_materialize e (.file info) d.path_with_dirs s c hc
    · simp only [List.mem_append] at hc
      rcases hc with hc | hc
      · exact add_file_calls_materialize e (.file info) d.path_with_dirs s c hc
      · exact loop_calls_materialize e d rest _ c hc
  | .directory dir :: rest, s => by
    intro c hc
    rw [loop_cons] at hc
    split_ifs at hc
    · exact add_directory_calls_materialize e d dir s c hc
    · simp only [List.mem_append] at hc
      rcases hc with hc | hc
      · exact add_directory_calls_materialize e d dir s c hc
      · exact loop_calls_materialize e d rest _ c hc
end

/-- C5: for every selector the constructor requests a block device of
(capacity in kilobytes) x 1024 bytes, that is 368640, 737280, 1228800, 1474560
and 2949120 bytes (a product that fits a 32-bit `int`); this request is the
first call of the constructor and the only one of its kind, and neither the
rest of the constructor, nor the destructor, `add_file`, `add_directory` or
`operator<<` issues another request for a block device. -/
theorem block_device_size_fixed {σ : Type} (e : Engine σ) (d : Defaults) (filename : String)
    (size : FloppySize) (code_page : Int) (s : σ) (img : Image) (file_object : File)
    (dir : Directory) (path_with_dirs : Bool) :
    Image.requested_bytes size = totalBytes size ∧
      Image.requested_bytes size = size.toNat * 1024 ∧
      Image.requested_bytes size < 2 ^ 31 ∧
      (∃ rest, Image.construct_calls e filename size code_page s =
        Call.file_disk_setup filename (totalBytes size) :: rest ∧
        ∀ c ∈ rest, c.is_setup = false) ∧
      (∀ c ∈ (Image.destruct e img s).calls, c.is_setup = false) ∧
      (∀ c ∈ (Image.add_file e file_object path_with_dirs s).calls, c.is_setup = false) ∧
      (∀ c ∈ (Image.add_directory e d dir s).calls, c.is_setup = false) ∧
      (∀ c ∈ (Image.operator_lshift e d file_object s).calls, c.is_setup = false) := by
  have hb : Image.requested_bytes size = totalBytes size := by cases size <;> rfl
  refine ⟨hb, rfl, by cases size <;> decide, ?_, ?_, ?_, ?_, ?_⟩
  · rw [← hb]
    unfold Image.construct_calls Image.construct Image.error Image.requested_bytes
    simp only []
    split_ifs <;> simp [Call.is_setup]
  · unfold Image.destruct
    split_ifs <;> simp [Call.is_setup]
  · intro c hc
    exact not_setup_of_materializes c (add_file_calls_materialize e file_object path_with_dirs s c hc)
  · intro c hc
    exact not_setup_of_materializes c (add_directory_calls_materialize e d dir s c hc)
  · intro c hc
    cases file_object with
    | file info =>
      exact not_setup_of_materializes c (add_file_calls_materialize e (.file info) false s c hc)
    | directory dir2 =>
      exact not_setup_of_materializes c (add_directory_calls_materialize e d dir2 s c hc)

end Flopgen
